import Mathlib

/-!
Shallow embedding of the SumGame engine (`src/src/App.tsx` and the utility
module `src/unnamed/part_000`): a 10×6 grid of numbered blocks, a target sum,
selection toggling, scoring, row injection and two game modes.

Randomness (`Math.random`) is modelled by explicit draw parameters:
`getRandomValue` consumes a raw natural seed and reduces it modulo 9
(mirroring `Math.floor(Math.random() * 9)`), `generateRow` consumes one seed
per column, and `generateNewTarget` consumes the shuffled block list (the
source shuffles with a random sort comparator, i.e. produces some permutation
of the occupied blocks) together with a raw count draw reduced modulo 3
(mirroring `Math.floor(Math.random() * 3)`).

JavaScript array indexing is modelled faithfully for reads: `grid[r]` with
`r` out of range yields `undefined`, and a further index into it throws a
`TypeError`; `handleBlockClick` is therefore `Except`-valued, with `.error ()`
standing for the thrown exception.  Cell writes (`newGrid[r][c] = null`) are
modelled with `List.set`, which matches the source for in-range indices (the
only ones the theorems use).
-/

namespace SumGame

/-- `GRID_COLS` from the utility module. -/
def GRID_COLS : Nat := 6

/-- `GRID_ROWS` from the utility module. -/
def GRID_ROWS : Nat := 10

/-- `INITIAL_ROWS` from the utility module. -/
def INITIAL_ROWS : Nat := 4

/-- `GameMode = 'classic' | 'time'`. -/
inductive GameMode where
  | classic
  | time
deriving DecidableEq, Repr

/-- `GameStatus = 'idle' | 'playing' | 'gameover'`. -/
inductive GameStatus where
  | idle
  | playing
  | gameover
deriving DecidableEq, Repr

/-- `Block { id, value }`; the opaque string id is modelled as a `Nat`. -/
structure Block where
  id : Nat
  value : Nat
deriving DecidableEq, Repr

/-- A grid cell: `Block | null`. -/
abbrev Cell := Option Block

/-- The grid: an array of rows, each an array of cells. -/
abbrev Grid := List (List Cell)

/-- `getRandomValue`: `Math.floor(Math.random() * 9) + 1`; the raw draw is a
seed reduced mod 9, so the result is in `[1, 9]` for every seed. -/
def getRandomValue (seed : Nat) : Nat := seed % 9 + 1

/-- The random draws consumed by one `generateRow` call: an id and a value
seed per column index. -/
structure RowDraw where
  ids : Nat → Nat
  seeds : Nat → Nat

/-- `generateRow`: a full row of `GRID_COLS` fresh blocks. -/
def generateRow (rd : RowDraw) : List Cell :=
  (List.range GRID_COLS).map fun c =>
    some { id := rd.ids c, value := getRandomValue (rd.seeds c) }

/-- The complete component state of `App`. -/
structure GameState where
  status : GameStatus
  mode : GameMode
  grid : Grid
  selected : List (Nat × Nat)
  target : Nat
  score : Nat
  timeLeft : Nat
  isPaused : Bool
  highScore : Nat
deriving DecidableEq, Repr

/-- The initial `useState` values of the component (status `idle`). -/
def idleState : GameState :=
  { status := .idle, mode := .classic, grid := [], selected := [],
    target := 0, score := 0, timeLeft := 10, isPaused := false, highScore := 0 }

/-- `currentGrid.flat().filter(b => b !== null)` in `generateNewTarget`. -/
def flatBlocks (g : Grid) : List Block := g.flatten.filterMap id

/-- The random draws consumed by one `generateNewTarget` call: the shuffled
copy of the occupied blocks and the raw count draw. -/
structure TargetDraw where
  shuffled : List Block
  kraw : Nat

/-- `generateNewTarget`: 10 on an empty grid, otherwise the sum of the first
`min(length, kraw % 3 + 2)` shuffled blocks, clamped into `[5, 40]`. -/
def generateNewTarget (g : Grid) (td : TargetDraw) : Nat :=
  let fb := flatBlocks g
  if fb.length = 0 then 10
  else
    let count := min fb.length (td.kraw % 3 + 2)
    let sum := (td.shuffled.take count).foldl (fun acc b => acc + b.value) 0
    max 5 (min sum 40)

/-- `initGame`: all-empty grid, the bottom `INITIAL_ROWS` rows filled with
`generateRow` (loop index `i` fills row `GRID_ROWS - 1 - i`). -/
def initialGrid (rds : Nat → RowDraw) : Grid :=
  (List.range INITIAL_ROWS).foldl
    (fun acc i => acc.set (GRID_ROWS - 1 - i) (generateRow (rds i)))
    (List.replicate GRID_ROWS (List.replicate GRID_COLS (none : Cell)))

/-- `initGame(selectedMode)`: fresh grid, `status = playing`, `score = 0`,
empty selection, fresh target, `timeLeft = 15` in time mode else `0`,
unpaused; `highScore` (a separate state hook) is untouched. -/
def initGame (s : GameState) (selectedMode : GameMode) (rds : Nat → RowDraw)
    (td : TargetDraw) : GameState :=
  let g := initialGrid rds
  { status := .playing, mode := selectedMode, grid := g, selected := [],
    target := generateNewTarget g td, score := 0,
    timeLeft := if selectedMode = .time then 15 else 0,
    isPaused := false, highScore := s.highScore }

/-- `prev[0].some(cell => cell !== null)`: is any cell of the top row
occupied? -/
def topRowOccupied (g : Grid) : Bool :=
  (g.getD 0 []).any fun cell => cell.isSome

/-- `addNewRow`: game over (grid unchanged) if the top row is occupied;
otherwise shift every row up by one (`newGrid[r] = newGrid[r+1]`, applied
in increasing `r`, i.e. drop the top row) and generate the new bottom row. -/
def addNewRow (s : GameState) (rd : RowDraw) : GameState :=
  if topRowOccupied s.grid then { s with status := .gameover }
  else { s with grid := s.grid.drop 1 ++ [generateRow rd] }

/-- `newGrid[r][c] = null` for one selected coordinate. -/
def setCellNone (g : Grid) (r c : Nat) : Grid :=
  g.set r ((g.getD r []).set c none)

/-- `selectedBlocks.forEach(({r, c}) => { newGrid[r][c] = null; })`. -/
def clearCells (g : Grid) : List (Nat × Nat) → Grid
  | [] => g
  | p :: ps => clearCells (setCellNone g p.1 p.2) ps

/-- Toggle membership of `(r, c)` in the selection, keeping the source's
append-at-end / filter-out behaviour. -/
def toggleSelect (sel : List (Nat × Nat)) (r c : Nat) : List (Nat × Nat) :=
  if sel.any fun s => s.1 = r ∧ s.2 = c then
    sel.filter fun s => ¬(s.1 = r ∧ s.2 = c)
  else sel ++ [(r, c)]

/-- One summand of `currentSum`: `grid[s.r][s.c]?.value || 0`.  Reading a
cell of an out-of-range row throws (`.error`), an out-of-range column or an
empty cell contributes `0`. -/
def selValue (g : Grid) (p : Nat × Nat) : Except Unit Nat :=
  match g[p.1]? with
  | none => .error ()
  | some row => .ok (((row[p.2]?.bind id).map Block.value).getD 0)

/-- `newSelected.reduce((acc, s) => acc + (grid[s.r][s.c]?.value || 0), 0)`. -/
def selSum (g : Grid) (sel : List (Nat × Nat)) : Except Unit Nat :=
  sel.foldlM (fun acc p => (selValue g p).map (acc + ·)) 0

/-- `handleSuccess(selectedBlocks)`: add `target * |selectedBlocks|` to the
score, empty the selected cells (no gravity), clear the selection, regenerate
the target from the post-clear grid, then the mode-specific effect: classic
calls `addNewRow`, time mode adds bonus time capped at 20. -/
def handleSuccess (s : GameState) (selectedBlocks : List (Nat × Nat))
    (td : TargetDraw) (rd : RowDraw) : GameState :=
  let points := s.target * selectedBlocks.length
  let cleared := clearCells s.grid selectedBlocks
  let s1 : GameState :=
    { s with score := s.score + points, grid := cleared, selected := [],
             target := generateNewTarget cleared td }
  if s.mode = .classic then addNewRow s1 rd
  else { s1 with timeLeft := min (s1.timeLeft + 5) 20 }

/-- `handleBlockClick(r, c)`: no-op unless playing and unpaused; reading
`grid[r]` out of range throws; an empty (or column-out-of-range) cell is a
no-op; otherwise toggle the selection, recompute the sum, and dispatch on
sum = target / sum > target / sum < target. -/
def handleBlockClick (s : GameState) (r c : Nat) (td : TargetDraw)
    (rd : RowDraw) : Except Unit GameState :=
  if s.status ≠ .playing ∨ s.isPaused then .ok s
  else
    match s.grid[r]? with
    | none => .error ()
    | some row =>
      match row[c]?.bind id with
      | none => .ok s
      | some _ =>
        let newSelected := toggleSelect s.selected r c
        let s' := { s with selected := newSelected }
        match selSum s.grid newSelected with
        | .error e => .error e
        | .ok currentSum =>
          if currentSum = s.target then .ok (handleSuccess s' newSelected td rd)
          else if currentSum > s.target then .ok { s' with selected := [] }
          else .ok s'

/-- The 1-second interval callback of time mode: at `timeLeft ≤ 1` call
`addNewRow` and reset to 10, otherwise decrement.  The interval only exists
while `playing`, unpaused and in time mode. -/
def timeTick (s : GameState) (rd : RowDraw) : GameState :=
  if s.status = .playing ∧ s.isPaused = false ∧ s.mode = .time then
    if s.timeLeft ≤ 1 then { addNewRow s rd with timeLeft := 10 }
    else { s with timeLeft := s.timeLeft - 1 }
  else s

/-- The 15-second interval callback of classic mode: `addNewRow`.  The
interval only exists while `playing`, unpaused and in classic mode. -/
def classicTick (s : GameState) (rd : RowDraw) : GameState :=
  if s.status = .playing ∧ s.isPaused = false ∧ s.mode = .classic then
    addNewRow s rd
  else s

/-- The pause button: `setIsPaused(!isPaused)`. -/
def togglePause (s : GameState) : GameState := { s with isPaused := !s.isPaused }

/-- The menu buttons: `setStatus('idle')`. -/
def returnToMenu (s : GameState) : GameState := { s with status := .idle }

/-- The high-score effect: `if (score > highScore) setHighScore(score)`. -/
def syncHighScore (s : GameState) : GameState :=
  if s.score > s.highScore then { s with highScore := s.score } else s

/-- The shuffled list of a `TargetDraw` must be a permutation of the occupied
blocks of the grid `generateNewTarget` is called on. -/
def ValidDraw (td : TargetDraw) (g : Grid) : Prop :=
  td.shuffled.Perm (flatBlocks g)

/-- One engine step: a user intent or a timer tick, with its random draws.
Clicks come from rendered cells, hence carry in-range coordinates. -/
inductive Step : GameState → GameState → Prop where
  | select (s : GameState) (r c : Nat) (td : TargetDraw) (rd : RowDraw)
      (s' : GameState) (hr : r < GRID_ROWS) (hc : c < GRID_COLS)
      (hdraw : ValidDraw td (clearCells s.grid (toggleSelect s.selected r c)))
      (hok : handleBlockClick s r c td rd = .ok s') : Step s s'
  | tickTime (s : GameState) (rd : RowDraw) : Step s (timeTick s rd)
  | tickClassic (s : GameState) (rd : RowDraw) : Step s (classicTick s rd)
  | pauseToggle (s : GameState) : Step s (togglePause s)
  | menu (s : GameState) : Step s (returnToMenu s)
  | reset (s : GameState) (m : GameMode) (rds : Nat → RowDraw)
      (td : TargetDraw) (hdraw : ValidDraw td (initialGrid rds)) :
      Step s (initGame s m rds td)
  | highScoreUpd (s : GameState) : Step s (syncHighScore s)

/-- States reachable from `initialize(mode)` on the fresh component. -/
inductive Reachable (m : GameMode) : GameState → Prop where
  | init (rds : Nat → RowDraw) (td : TargetDraw)
      (hdraw : ValidDraw td (initialGrid rds)) :
      Reachable m (initGame idleState m rds td)
  | step {s s' : GameState} : Reachable m s → Step s s' → Reachable m s'

/-- Cell lookup used by the specification statements. -/
def cellAt (g : Grid) (r c : Nat) : Cell := (g.getD r []).getD c none

/-- Does every selected coordinate reference an occupied cell? -/
def selectionOccupied (s : GameState) : Bool :=
  s.selected.all fun p => (cellAt s.grid p.1 p.2).isSome

/-- Shape of a well-formed grid: `GRID_ROWS` rows of `GRID_COLS` cells. -/
def GridWF (g : Grid) : Prop :=
  g.length = GRID_ROWS ∧ ∀ row ∈ g, row.length = GRID_COLS

/-! Concrete draws and states used to instantiate the theorems. -/

/-- A draw producing a row of value-1 blocks with id 0. -/
def rdOnes : RowDraw := { ids := fun _ => 0, seeds := fun _ => 0 }

/-- A draw producing the row `[2, 3, 1, 1, 1, 1]`. -/
def rdTop : RowDraw :=
  { ids := fun c => c, seeds := fun c => if c = 0 then 1 else if c = 1 then 2 else 0 }

/-- Init draws: rows 9 and 6 get `[2, 3, 1, 1, 1, 1]`, rows 8 and 7 all 1s. -/
def c7rds : Nat → RowDraw := fun i => if i = 0 then rdTop else if i = 3 then rdTop else rdOnes

/-- Identity shuffle over the initial grid of `c7rds`, count draw 0. -/
def c7td0 : TargetDraw := { shuffled := flatBlocks (initialGrid c7rds), kraw := 0 }

/-- The state right after `initGame('classic')` with the `c7rds` draws. -/
def c7s1 : GameState := initGame idleState .classic c7rds c7td0

/-- Identity shuffle for the first click of the trace. -/
def c7tdA : TargetDraw :=
  { shuffled := flatBlocks (clearCells c7s1.grid (toggleSelect c7s1.selected 9 0)), kraw := 0 }

/-- After clicking `(9, 0)` (value 2, sum 2 < target 5). -/
def c7s2 : GameState := ((handleBlockClick c7s1 9 0 c7tdA rdOnes).toOption).getD c7s1

/-- Identity shuffle for the second click of the trace. -/
def c7tdB : TargetDraw :=
  { shuffled := flatBlocks (clearCells c7s2.grid (toggleSelect c7s2.selected 9 1)), kraw := 0 }

/-- After clicking `(9, 1)` (value 3, sum 5 = target): success, clear, inject. -/
def c7s3 : GameState := ((handleBlockClick c7s2 9 1 c7tdB rdOnes).toOption).getD c7s2

/-- Identity shuffle for the third click of the trace. -/
def c7tdC : TargetDraw :=
  { shuffled := flatBlocks (clearCells c7s3.grid (toggleSelect c7s3.selected 7 0)), kraw := 0 }

/-- After clicking `(7, 0)` (value 1, sum 1 < target 5): selection persists. -/
def c7s4 : GameState := ((handleBlockClick c7s3 7 0 c7tdC rdOnes).toOption).getD c7s3

/-- After the classic 15-second row injection: the grid shifts up while the
selection still holds `(7, 0)`, which now references an emptied cell. -/
def c7s5 : GameState := classicTick c7s4 rdOnes

/-- A playing state whose grid is full of value-9 blocks. -/
def nines : GameState :=
  { status := .playing, mode := .classic,
    grid := List.replicate GRID_ROWS (List.replicate GRID_COLS (some { id := 0, value := 9 })),
    selected := [], target := 5, score := 0, timeLeft := 0, isPaused := false,
    highScore := 0 }

/-- The `nines` state with target 9, so one click on a 9 succeeds. -/
def ninesT9 : GameState := { nines with target := 9 }

/-- A playing state with an all-empty 10×6 grid. -/
def emptyPlaying : GameState :=
  { status := .playing, mode := .classic,
    grid := List.replicate GRID_ROWS (List.replicate GRID_COLS (none : Cell)),
    selected := [], target := 10, score := 0, timeLeft := 0, isPaused := false,
    highScore := 0 }

/-- A time-mode playing state with `timeLeft = 2` over the empty grid. -/
def timeState2 : GameState := { emptyPlaying with mode := .time, timeLeft := 2 }

/-- A time-mode playing state with `timeLeft = 1` over the empty grid. -/
def timeState1 : GameState := { emptyPlaying with mode := .time, timeLeft := 1 }

/-- A grid whose only occupied cell is `(9, 0)` with value 7. -/
def oneBlockGrid : Grid :=
  (List.replicate GRID_ROWS (List.replicate GRID_COLS (none : Cell))).set 9
    ((List.replicate GRID_COLS (none : Cell)).set 0 (some { id := 0, value := 7 }))

/-- Identity shuffle over `oneBlockGrid`, count draw 0. -/
def oneBlockTd : TargetDraw := { shuffled := flatBlocks oneBlockGrid, kraw := 0 }

/-- A grid with two occupied cells, values 4 and 5. -/
def twoBlockGrid : Grid :=
  (List.replicate GRID_ROWS (List.replicate GRID_COLS (none : Cell))).set 9
    (((List.replicate GRID_COLS (none : Cell)).set 0 (some { id := 0, value := 4 })).set 1
      (some { id := 1, value := 5 }))

/-- Identity shuffle over `twoBlockGrid`, count draw 0. -/
def twoBlockTd : TargetDraw := { shuffled := flatBlocks twoBlockGrid, kraw := 0 }

/-- A trivial target draw for calls whose draw is irrelevant. -/
def tdTriv : TargetDraw := { shuffled := [], kraw := 0 }

/-- Init draws where every fresh row is all 1s. -/
def rdsOnes : Nat → RowDraw := fun _ => rdOnes

/-- Identity shuffle over the all-ones initial grid. -/
def tdInitOnes : TargetDraw := { shuffled := flatBlocks (initialGrid rdsOnes), kraw := 0 }

/-! ## Basic lemmas about the building blocks -/

theorem getRandomValue_bounds (seed : Nat) :
    1 ≤ getRandomValue seed ∧ getRandomValue seed ≤ 9 := by
  unfold getRandomValue
  have h : seed % 9 < 9 := Nat.mod_lt _ (by norm_num)
  omega

theorem generateRow_length (rd : RowDraw) : (generateRow rd).length = GRID_COLS := by
  simp [generateRow]

theorem generateRow_getElem? (rd : RowDraw) {c : Nat} (hc : c < GRID_COLS) :
    (generateRow rd)[c]? =
      some (some { id := rd.ids c, value := getRandomValue (rd.seeds c) }) := by
  unfold generateRow
  rw [List.getElem?_map, List.getElem?_range hc]
  rfl

theorem generateNewTarget_bounds (g : Grid) (td : TargetDraw) :
    5 ≤ generateNewTarget g td ∧ generateNewTarget g td ≤ 40 := by
  by_cases h : (flatBlocks g).length = 0 <;> simp [generateNewTarget, h]

theorem topRowOccupied_false_iff (g : Grid) :
    topRowOccupied g = false ↔ ∀ cell ∈ g.getD 0 [], cell = none := by
  unfold topRowOccupied
  rw [List.any_eq_false]
  refine forall₂_congr fun cell _ => ?_
  cases cell <;> simp

/-! ## Claim C2: injectRow on an occupied top row -/

/-- C2: if row 0 has at least one occupied cell, `addNewRow` sets the status
to `gameover` and leaves the grid completely unchanged (no shift, no new
bottom row). -/
theorem addNewRow_gameover (s : GameState) (rd : RowDraw)
    (h : topRowOccupied s.grid = true) :
    (addNewRow s rd).status = .gameover ∧ (addNewRow s rd).grid = s.grid := by
  unfold addNewRow
  rw [if_pos h]
  exact ⟨rfl, rfl⟩

/-- C2 witness: the all-nines grid has an occupied top row; `addNewRow`
game-overs it and keeps the grid. -/
theorem addNewRow_gameover_witness :
    (addNewRow nines rdOnes).status = .gameover ∧ (addNewRow nines rdOnes).grid = nines.grid :=
  addNewRow_gameover nines rdOnes (by decide)

/-! ## Claim C10: injectRow on an empty top row changes only the grid -/

/-- C10: with an empty row 0, `addNewRow` only replaces the grid by the
shifted-up grid with a fresh bottom row; score, target, selection, status,
mode, pause flag, time and high score are all untouched — in particular the
selection is neither cleared nor re-indexed. -/
theorem addNewRow_frame (s : GameState) (rd : RowDraw)
    (h : ∀ cell ∈ s.grid.getD 0 [], cell = none) :
    addNewRow s rd = { s with grid := s.grid.drop 1 ++ [generateRow rd] } ∧
    (addNewRow s rd).selected = s.selected ∧
    (addNewRow s rd).score = s.score ∧
    (addNewRow s rd).target = s.target ∧
    (addNewRow s rd).status = s.status ∧
    (addNewRow s rd).mode = s.mode ∧
    (addNewRow s rd).isPaused = s.isPaused ∧
    (addNewRow s rd).highScore = s.highScore := by
  have htop : topRowOccupied s.grid = false := (topRowOccupied_false_iff s.grid).mpr h
  unfold addNewRow
  rw [htop]
  exact ⟨rfl, rfl, rfl, rfl, rfl, rfl, rfl, rfl⟩

/-- C10 witness: on the empty playing state the shift preserves every
non-grid field. -/
theorem addNewRow_frame_witness :
    addNewRow emptyPlaying rdOnes =
      { emptyPlaying with grid := emptyPlaying.grid.drop 1 ++ [generateRow rdOnes] } :=
  (addNewRow_frame emptyPlaying rdOnes (by decide)).1

/-! ## Claim C3: injectRow on an empty top row shifts and refills -/

/-- C3: with a 10-row grid whose row 0 is entirely empty, `addNewRow` moves
row `i+1` into row `i` for every `i < GRID_ROWS - 1` and fills row
`GRID_ROWS - 1` with a fresh row of `GRID_COLS` non-empty blocks whose values
lie in `[1, 9]`. -/
theorem addNewRow_shift (s : GameState) (rd : RowDraw)
    (hlen : s.grid.length = GRID_ROWS)
    (h : ∀ cell ∈ s.grid.getD 0 [], cell = none) :
    (addNewRow s rd).grid.length = GRID_ROWS ∧
    (∀ i, i < GRID_ROWS - 1 → (addNewRow s rd).grid[i]? = s.grid[i + 1]?) ∧
    (addNewRow s rd).grid[GRID_ROWS - 1]? = some (generateRow rd) ∧
    (∀ c, c < GRID_COLS →
      ∃ b : Block, (generateRow rd)[c]? = some (some b) ∧ 1 ≤ b.value ∧ b.value ≤ 9) := by
  have htop : topRowOccupied s.grid = false := (topRowOccupied_false_iff s.grid).mpr h
  have hg : (addNewRow s rd).grid = s.grid.drop 1 ++ [generateRow rd] := by
    simp [addNewRow, htop]
  have hdlen : (s.grid.drop 1).length = GRID_ROWS - 1 := by
    rw [List.length_drop, hlen]
  refine ⟨?_, ?_, ?_, ?_⟩
  · rw [hg, List.length_append, hdlen]
    rfl
  · intro i hi
    rw [hg, List.getElem?_append_left (by omega), List.getElem?_drop, Nat.add_comm]
  · rw [hg, List.getElem?_append_right (by omega), hdlen]
    norm_num
  · intro c hc
    exact ⟨_, generateRow_getElem? rd hc, getRandomValue_bounds (rd.seeds c)⟩

/-- C3 witness: shifting the empty playing grid moves row 1 into row 0,
installs the fresh all-ones row at the bottom, and that row's first cell is a
block with value 1. -/
theorem addNewRow_shift_witness :
    (addNewRow emptyPlaying rdOnes).grid[0]? = emptyPlaying.grid[1]? ∧
    (addNewRow emptyPlaying rdOnes).grid[9]? = some (generateRow rdOnes) ∧
    (generateRow rdOnes)[0]? = some (some { id := 0, value := 1 }) := by
  have h := addNewRow_shift emptyPlaying rdOnes (by decide) (by decide)
  exact ⟨h.2.1 0 (by decide), h.2.2.1, by decide⟩

/-! ## Claim C9: the time-mode tick -/

/-- C9: in time mode while playing and unpaused, a tick with `timeLeft > 1`
decrements it by one, and a tick with `timeLeft = 1` performs `addNewRow`
(with its game-over behaviour when row 0 is occupied) and resets `timeLeft`
to 10. -/
theorem timeTick_spec (s : GameState) (rd : RowDraw)
    (hst : s.status = .playing) (hp : s.isPaused = false) (hm : s.mode = .time) :
    (1 < s.timeLeft → timeTick s rd = { s with timeLeft := s.timeLeft - 1 }) ∧
    (s.timeLeft = 1 → timeTick s rd = { addNewRow s rd with timeLeft := 10 }) := by
  unfold timeTick
  rw [if_pos ⟨hst, hp, hm⟩]
  constructor
  · intro hgt
    rw [if_neg (by omega)]
  · intro heq
    rw [if_pos (by omega)]

/-- C9 witness: over the empty grid, a tick at `timeLeft = 2` yields 1, and a
tick at `timeLeft = 1` injects a row and resets the clock to 10. -/
theorem timeTick_spec_witness :
    timeTick timeState2 rdOnes = { timeState2 with timeLeft := 1 } ∧
    timeTick timeState1 rdOnes = { addNewRow timeState1 rdOnes with timeLeft := 10 } :=
  ⟨(timeTick_spec timeState2 rdOnes (by decide) (by decide) (by decide)).1 (by decide),
   (timeTick_spec timeState1 rdOnes (by decide) (by decide) (by decide)).2 rfl⟩

/-! ## Case analysis of a click and of a step -/

theorem handleBlockClick_ok_shape (s : GameState) (r c : Nat) (td : TargetDraw)
    (rd : RowDraw) (s' : GameState)
    (h : handleBlockClick s r c td rd = .ok s') :
    s' = s ∨
    s' = handleSuccess { s with selected := toggleSelect s.selected r c }
           (toggleSelect s.selected r c) td rd ∨
    s' = { s with selected := ([] : List (Nat × Nat)) } ∨
    s' = { s with selected := toggleSelect s.selected r c } := by
  unfold handleBlockClick at h
  split at h
  · exact Or.inl (Except.ok.inj h).symm
  · split at h
    · exact absurd h (by simp)
    · split at h
      · exact Or.inl (Except.ok.inj h).symm
      · simp only [] at h
        split at h
        · exact absurd h (by simp)
        · split at h
          · exact Or.inr (Or.inl (Except.ok.inj h).symm)
          · split at h
            · exact Or.inr (Or.inr (Or.inl (Except.ok.inj h).symm))
            · exact Or.inr (Or.inr (Or.inr (Except.ok.inj h).symm))

theorem addNewRow_target (s : GameState) (rd : RowDraw) :
    (addNewRow s rd).target = s.target := by
  unfold addNewRow
  split <;> rfl

theorem addNewRow_selected (s : GameState) (rd : RowDraw) :
    (addNewRow s rd).selected = s.selected := by
  unfold addNewRow
  split <;> rfl

theorem handleSuccess_target (s : GameState) (sel : List (Nat × Nat))
    (td : TargetDraw) (rd : RowDraw) :
    (handleSuccess s sel td rd).target = generateNewTarget (clearCells s.grid sel) td := by
  by_cases hm : s.mode = .classic <;> simp [handleSuccess, hm, addNewRow_target]

theorem handleSuccess_selected (s : GameState) (sel : List (Nat × Nat))
    (td : TargetDraw) (rd : RowDraw) :
    (handleSuccess s sel td rd).selected = [] := by
  by_cases hm : s.mode = .classic <;> simp [handleSuccess, hm, addNewRow_selected]

theorem mem_toggleSelect {sel : List (Nat × Nat)} {r c : Nat} {p : Nat × Nat}
    (h : p ∈ toggleSelect sel r c) : p ∈ sel ∨ p = (r, c) := by
  unfold toggleSelect at h
  split at h
  · exact Or.inl (List.mem_of_mem_filter h)
  · rcases List.mem_append.mp h with h' | h'
    · exact Or.inl h'
    · exact Or.inr (List.mem_singleton.mp h')

theorem initGame_target (s : GameState) (m : GameMode) (rds : Nat → RowDraw)
    (td : TargetDraw) :
    (initGame s m rds td).target = generateNewTarget (initialGrid rds) td := by
  simp only [initGame]

theorem Step.target_cases {s s' : GameState} (h : Step s s') :
    s'.target = s.target ∨ 5 ≤ s'.target ∧ s'.target ≤ 40 := by
  cases h with
  | select r c td rd s2 hr hc hdraw hok =>
    rcases handleBlockClick_ok_shape s r c td rd s' hok with e | e | e | e
    · exact Or.inl (by rw [e])
    · exact Or.inr (by rw [e, handleSuccess_target]; exact generateNewTarget_bounds _ _)
    · exact Or.inl (by rw [e])
    · exact Or.inl (by rw [e])
  | tickTime rd =>
    left
    unfold timeTick
    split
    · split
      · exact addNewRow_target s rd
      · rfl
    · rfl
  | tickClassic rd =>
    left
    unfold classicTick
    split
    · exact addNewRow_target s rd
    · rfl
  | pauseToggle => exact Or.inl rfl
  | menu => exact Or.inl rfl
  | reset m rds td hdraw =>
    right
    rw [initGame_target]
    exact generateNewTarget_bounds _ _
  | highScoreUpd =>
    left
    unfold syncHighScore
    split <;> rfl

theorem Step.selected_cases {s s' : GameState} (h : Step s s') :
    s'.selected = s.selected ∨ s'.selected = [] ∨
    ∃ r c, r < GRID_ROWS ∧ c < GRID_COLS ∧ s'.selected = toggleSelect s.selected r c := by
  cases h with
  | select r c td rd s2 hr hc hdraw hok =>
    rcases handleBlockClick_ok_shape s r c td rd s' hok with e | e | e | e
    · exact Or.inl (by rw [e])
    · exact Or.inr (Or.inl (by rw [e, handleSuccess_selected]))
    · exact Or.inr (Or.inl (by rw [e]))
    · exact Or.inr (Or.inr ⟨r, c, hr, hc, by rw [e]⟩)
  | tickTime rd =>
    left
    unfold timeTick
    split
    · split
      · exact addNewRow_selected s rd
      · rfl
    · rfl
  | tickClassic rd =>
    left
    unfold classicTick
    split
    · exact addNewRow_selected s rd
    · rfl
  | pauseToggle => exact Or.inl rfl
  | menu => exact Or.inl rfl
  | reset m rds td hdraw => exact Or.inr (Or.inl rfl)
  | highScoreUpd =>
    left
    unfold syncHighScore
    split <;> rfl

/-! ## Claim C5: the target stays in [5, 40] -/

/-- C5: in every state reachable from `initGame(mode)` through any sequence
of intents and ticks, `5 ≤ target ≤ 40`. -/
theorem reachable_target_bounds (m : GameMode) (s : GameState)
    (h : Reachable m s) : 5 ≤ s.target ∧ s.target ≤ 40 := by
  induction h with
  | init rds td hdraw =>
    rw [initGame_target]
    exact generateNewTarget_bounds _ _
  | step _ hstep ih =>
    rcases Step.target_cases hstep with e | e
    · rw [e]
      exact ih
    · exact e

/-- C5 witness: the bound holds at a concrete freshly initialised state. -/
theorem reachable_target_bounds_witness :
    5 ≤ (initGame idleState .classic rdsOnes tdInitOnes).target ∧
    (initGame idleState .classic rdsOnes tdInitOnes).target ≤ 40 :=
  reachable_target_bounds .classic _ (Reachable.init rdsOnes tdInitOnes (List.Perm.refl _))

/-! ## Claim C7: does the selection always reference occupied cells? -/

theorem reach_c7s1 : Reachable GameMode.classic c7s1 :=
  Reachable.init c7rds c7td0 (List.Perm.refl _)

theorem reach_c7s2 : Reachable GameMode.classic c7s2 :=
  reach_c7s1.step
    (Step.select c7s1 9 0 c7tdA rdOnes c7s2 (by decide) (by decide) (List.Perm.refl _) rfl)

theorem reach_c7s3 : Reachable GameMode.classic c7s3 :=
  reach_c7s2.step
    (Step.select c7s2 9 1 c7tdB rdOnes c7s3 (by decide) (by decide) (List.Perm.refl _) rfl)

theorem reach_c7s4 : Reachable GameMode.classic c7s4 :=
  reach_c7s3.step
    (Step.select c7s3 7 0 c7tdC rdOnes c7s4 (by decide) (by decide) (List.Perm.refl _) rfl)

theorem reach_c7s5 : Reachable GameMode.classic c7s5 :=
  reach_c7s4.step (Step.tickClassic c7s4 rdOnes)

/-- C7 counterexample: a concrete reachable classic-mode state — init, click
`(9,0)`, click `(9,1)` (success and row injection), click `(7,0)`, then the
15-second row injection — whose selection `[(7,0)]` references a cell that
the shift left empty.  `addNewRow` does not preserve the claimed invariant. -/
theorem selection_occupied_fails :
    Reachable GameMode.classic c7s5 ∧ selectionOccupied c7s5 = false :=
  ⟨reach_c7s5, by decide⟩

/-- C7 amended: in every reachable state every selected coordinate lies
within the grid bounds, and `selectCell` only adds occupied cells; but
`injectRow` with a non-empty selection does not re-index it, so after a shift
the selection may reference cells that are now empty. -/
theorem reachable_selected_inRange (m : GameMode) (s : GameState)
    (h : Reachable m s) : ∀ p ∈ s.selected, p.1 < GRID_ROWS ∧ p.2 < GRID_COLS := by
  induction h with
  | init rds td hdraw =>
    intro p hp
    simp [initGame] at hp
  | step _ hstep ih =>
    intro p hp
    rcases Step.selected_cases hstep with e | e | ⟨r, c, hrr, hcc, e⟩
    · exact ih p (e ▸ hp)
    · rw [e] at hp
      simp at hp
    · rw [e] at hp
      rcases mem_toggleSelect hp with h' | h'
      · exact ih p h'
      · rw [h']
        exact ⟨hrr, hcc⟩

/-- C7 amended witness: the selected coordinate `(9, 0)` of the reachable
state `c7s2` is within the 10×6 bounds. -/
theorem reachable_selected_inRange_witness :
    (9 : Nat) < GRID_ROWS ∧ (0 : Nat) < GRID_COLS :=
  reachable_selected_inRange .classic c7s2 reach_c7s2 (9, 0) (by decide)

/-! ## Cell-level lemmas -/

theorem grid_getElem?_of_lt (g : Grid) {r : Nat} (hr : r < g.length) :
    g[r]? = some (g.getD r []) := by
  rw [List.getElem?_eq_getElem hr, List.getD_eq_getElem?_getD,
    List.getElem?_eq_getElem hr]
  rfl

theorem cellAt_eq (g : Grid) (r c : Nat) :
    ((g.getD r [])[c]?).bind id = cellAt g r c := by
  have hbind : ∀ o : Option Cell, o.bind id = o.getD none := fun o => by cases o <;> rfl
  rw [cellAt, hbind]
  exact (List.getD_eq_getElem?_getD _ _ _).symm

theorem cellAt_def' (g : Grid) (r c : Nat) :
    cellAt g r c = ((g[r]?.getD [])[c]?).getD none := by
  unfold cellAt
  simp only [List.getD_eq_getElem?_getD]

theorem length_setCellNone (g : Grid) (r c : Nat) :
    (setCellNone g r c).length = g.length := by
  unfold setCellNone
  exact List.length_set g r _

theorem cellAt_setCellNone_self (g : Grid) {r : Nat} (c : Nat) (hr : r < g.length) :
    cellAt (setCellNone g r c) r c = none := by
  rw [cellAt_def']
  unfold setCellNone
  rw [List.getElem?_set, if_pos rfl, if_pos hr]
  simp only [Option.getD_some]
  rw [List.getElem?_set, if_pos rfl]
  by_cases hc : c < (g.getD r []).length
  · rw [if_pos hc]
    rfl
  · rw [if_neg hc]
    rfl

theorem cellAt_setCellNone_none (g : Grid) (r c x y : Nat)
    (h : cellAt g x y = none) : cellAt (setCellNone g r c) x y = none := by
  rw [cellAt_def'] at h ⊢
  unfold setCellNone
  rw [List.getElem?_set]
  by_cases hrx : r = x
  · subst hrx
    rw [if_pos rfl]
    by_cases hlen : r < g.length
    · rw [if_pos hlen]
      simp only [Option.getD_some]
      rw [List.getElem?_set]
      by_cases hcy : c = y
      · subst hcy
        rw [if_pos rfl]
        by_cases h2 : c < (g.getD r []).length
        · rw [if_pos h2]
          rfl
        · rw [if_neg h2]
          rfl
      · rw [if_neg hcy]
        rw [List.getD_eq_getElem?_getD]
        exact h
    · rw [if_neg hlen]
      simp
  · rw [if_neg hrx]
    exact h

theorem cellAt_clearCells_none :
    ∀ (ps : List (Nat × Nat)) (g : Grid) (x y : Nat),
      cellAt g x y = none → cellAt (clearCells g ps) x y = none
  | [], _, _, _, h => h
  | p :: ps, g, x, y, h =>
    cellAt_clearCells_none ps (setCellNone g p.1 p.2) x y
      (cellAt_setCellNone_none g p.1 p.2 x y h)

theorem length_clearCells :
    ∀ (ps : List (Nat × Nat)) (g : Grid), (clearCells g ps).length = g.length
  | [], _ => rfl
  | p :: ps, g => by
    rw [clearCells, length_clearCells ps (setCellNone g p.1 p.2), length_setCellNone]

theorem cellAt_clearCells_of_mem :
    ∀ (ps : List (Nat × Nat)) (g : Grid) (p : Nat × Nat), p ∈ ps →
      (∀ q ∈ ps, q.1 < g.length) →
      cellAt (clearCells g ps) p.1 p.2 = none := by
  intro ps
  induction ps with
  | nil =>
    intro g p hp
    cases hp
  | cons q qs ih =>
    intro g p hp hall
    rw [clearCells]
    rcases List.mem_cons.mp hp with rfl | hp'
    · exact cellAt_clearCells_none qs _ p.1 p.2
        (cellAt_setCellNone_self _ p.2 (hall p (List.mem_cons_self _ _)))
    · refine ih (setCellNone g q.1 q.2) p hp' fun q' hq' => ?_
      rw [length_setCellNone]
      exact hall q' (List.mem_cons_of_mem _ hq')

/-! ## Claim C4: the shape of generateNewTarget -/

/-- C4 counterexample: on a grid whose only occupied cell holds value 7, the
interval `[2, min(4, occupiedCount)] = [2, 1]` is empty, yet
`generateNewTarget` still answers (the source takes
`count = min(occupiedCount, draw) = 1` and returns the clamp of the single
block's value). -/
theorem generateNewTarget_count_fails :
    (flatBlocks oneBlockGrid).length = 1 ∧
    generateNewTarget oneBlockGrid oneBlockTd = 7 ∧
    ¬ ∃ k, 2 ≤ k ∧ k ≤ min 4 (flatBlocks oneBlockGrid).length ∧
      generateNewTarget oneBlockGrid oneBlockTd =
        max 5 (min ((oneBlockTd.shuffled.take k).foldl (fun acc b => acc + b.value) 0) 40) := by
  refine ⟨by decide, by decide, ?_⟩
  rintro ⟨k, h2, hk, -⟩
  rw [show (flatBlocks oneBlockGrid).length = 1 from by decide] at hk
  omega

/-- C4 amended: `generateNewTarget` returns 10 on a block-free grid;
otherwise it draws `j = kraw % 3 + 2 ∈ [2, 4]`, takes the first
`k = min(occupiedCount, j)` blocks of the shuffle (distinct occupied blocks —
so `k ∈ [2, min(4, occupiedCount)]` only when `occupiedCount ≥ 2`, and
`k = 1` when a single cell is occupied), and returns their sum clamped to
`[5, 40]`. -/
theorem generateNewTarget_spec (g : Grid) (td : TargetDraw)
    (hdraw : ValidDraw td g) :
    ((flatBlocks g).length = 0 → generateNewTarget g td = 10) ∧
    ((flatBlocks g).length ≠ 0 →
      2 ≤ td.kraw % 3 + 2 ∧ td.kraw % 3 + 2 ≤ 4 ∧
      (∀ b ∈ td.shuffled.take (min (flatBlocks g).length (td.kraw % 3 + 2)),
        b ∈ flatBlocks g) ∧
      generateNewTarget g td =
        max 5 (min ((td.shuffled.take (min (flatBlocks g).length (td.kraw % 3 + 2))).foldl
          (fun acc b => acc + b.value) 0) 40)) := by
  constructor
  · intro h0
    simp [generateNewTarget, h0]
  · intro hne
    refine ⟨by omega, by omega, ?_, ?_⟩
    · intro b hb
      exact hdraw.mem_iff.mp (List.mem_of_mem_take hb)
    · simp [generateNewTarget, hne]

/-- C4 amended witness: on the two-block grid (values 4 and 5) with the
identity shuffle and raw draw 0, the target is `clamp(4 + 5) = 9`. -/
theorem generateNewTarget_spec_witness :
    generateNewTarget twoBlockGrid twoBlockTd = 9 :=
  ((((generateNewTarget_spec twoBlockGrid twoBlockTd (List.Perm.refl _)).2)
    (by decide)).2.2.2).trans (by decide)

/-! ## Claim C6: overshooting the target clears only the selection -/

/-- C6: while playing and unpaused, a toggle on an occupied cell whose new
selection sum strictly exceeds the target empties the selection and leaves
every other field — grid, score, target included — unchanged. -/
theorem handleBlockClick_overshoot (s : GameState) (r c : Nat) (td : TargetDraw)
    (rd : RowDraw) (b : Block) (n : Nat)
    (hst : s.status = .playing) (hp : s.isPaused = false)
    (hr : r < s.grid.length)
    (hcell : cellAt s.grid r c = some b)
    (hsum : selSum s.grid (toggleSelect s.selected r c) = .ok n)
    (hgt : s.target < n) :
    handleBlockClick s r c td rd = .ok { s with selected := [] } := by
  have hsome : s.grid[r]? = some (s.grid.getD r []) := grid_getElem?_of_lt s.grid hr
  unfold handleBlockClick
  rw [if_neg (by simp [hst, hp])]
  split
  next heq => exact absurd (hsome.symm.trans heq) (by simp)
  next row heq =>
    have hrow : row = s.grid.getD r [] := Option.some.inj (heq.symm.trans hsome)
    split
    next heq2 =>
      rw [hrow, cellAt_eq, hcell] at heq2
      exact absurd heq2 (by simp)
    next val heq2 =>
      simp only []
      split
      next e he => rw [hsum] at he; exact absurd he (by simp)
      next cs hcs =>
        rw [hsum] at hcs
        have hcseq : n = cs := Except.ok.inj hcs
        rw [if_neg (by omega), if_pos (by omega)]

/-- C6 witness: on the all-nines grid with target 5, clicking `(0, 0)` makes
the sum 9 > 5, so the click resolves to the same state with an empty
selection. -/
theorem handleBlockClick_overshoot_witness :
    handleBlockClick nines 0 0 tdTriv rdOnes = .ok { nines with selected := [] } :=
  handleBlockClick_overshoot nines 0 0 tdTriv rdOnes { id := 0, value := 9 } 9
    rfl rfl (by decide) (by decide) rfl (by decide)

/-! ## Claim C8: is selectCell always a silent no-op? -/

/-- C8 counterexample: clicking row 10 (out of range) of the all-nines state
while playing and unpaused evaluates `grid[10][0]`, i.e. indexes into
`undefined`, which throws a TypeError instead of being a silent no-op. -/
theorem handleBlockClick_oob_throws :
    handleBlockClick nines 10 0 tdTriv rdOnes = .error () ∧
    ¬ handleBlockClick nines 10 0 tdTriv rdOnes = .ok nines := by
  refine ⟨rfl, fun h => ?_⟩
  exact Except.noConfusion
    ((rfl : handleBlockClick nines 10 0 tdTriv rdOnes = .error ()).symm.trans h)

/-- C8 amended: `selectCell` is a silent no-op whenever the game is not
playing or is paused (for arbitrary coordinates), and whenever it is playing
and unpaused on an in-range row whose addressed cell is empty or whose column
is out of range; but an out-of-range row while playing and unpaused throws a
TypeError rather than being a no-op. -/
theorem handleBlockClick_noop (s : GameState) (r c : Nat) (td : TargetDraw)
    (rd : RowDraw) :
    (s.status ≠ .playing ∨ s.isPaused = true → handleBlockClick s r c td rd = .ok s) ∧
    (s.status = .playing → s.isPaused = false → r < s.grid.length →
      cellAt s.grid r c = none → handleBlockClick s r c td rd = .ok s) := by
  constructor
  · intro h
    unfold handleBlockClick
    rw [if_pos h]
  · intro hst hp hr hcell
    have hsome : s.grid[r]? = some (s.grid.getD r []) := grid_getElem?_of_lt s.grid hr
    unfold handleBlockClick
    rw [if_neg (by simp [hst, hp])]
    split
    next heq => exact absurd (hsome.symm.trans heq) (by simp)
    next row heq =>
      have hrow : row = s.grid.getD r [] := Option.some.inj (heq.symm.trans hsome)
      split
      next => rfl
      next val heq2 =>
        rw [hrow, cellAt_eq, hcell] at heq2
        exact absurd heq2 (by simp)

/-- C8 amended witness: a click while idle is a no-op, and a click on an
empty in-range cell while playing is a no-op. -/
theorem handleBlockClick_noop_witness :
    handleBlockClick idleState 99 99 tdTriv rdOnes = .ok idleState ∧
    handleBlockClick emptyPlaying 0 0 tdTriv rdOnes = .ok emptyPlaying :=
  ⟨(handleBlockClick_noop idleState 99 99 tdTriv rdOnes).1 (Or.inl (by decide)),
   (handleBlockClick_noop emptyPlaying 0 0 tdTriv rdOnes).2 rfl rfl (by decide) (by decide)⟩

/-! ## Claim C1: resolving a successful selection -/

/-- C1: while playing and unpaused, when a toggle on an occupied cell makes
the selection sum exactly the target, the click adds `target * |selection|`
to the score, empties every selected cell in place, clears the selection,
regenerates the target from the post-clear grid, and then applies the
mode-specific effect: classic mode runs `addNewRow`, time mode only sets
`timeLeft := min(timeLeft + 5, 20)` (the grid stays the cleared grid). -/
theorem handleBlockClick_success (s : GameState) (r c : Nat) (td : TargetDraw)
    (rd : RowDraw) (b : Block)
    (hst : s.status = .playing) (hp : s.isPaused = false)
    (hlen : s.grid.length = GRID_ROWS)
    (hselwf : ∀ p ∈ s.selected, p.1 < GRID_ROWS ∧ p.2 < GRID_COLS)
    (hr : r < GRID_ROWS)
    (hcell : cellAt s.grid r c = some b)
    (hsum : selSum s.grid (toggleSelect s.selected r c) = .ok s.target) :
    handleBlockClick s r c td rd =
      .ok (if s.mode = .classic then
             addNewRow { s with
               score := s.score + s.target * (toggleSelect s.selected r c).length,
               grid := clearCells s.grid (toggleSelect s.selected r c),
               selected := [],
               target := generateNewTarget (clearCells s.grid (toggleSelect s.selected r c)) td } rd
           else
             { s with
               score := s.score + s.target * (toggleSelect s.selected r c).length,
               grid := clearCells s.grid (toggleSelect s.selected r c),
               selected := [],
               target := generateNewTarget (clearCells s.grid (toggleSelect s.selected r c)) td,
               timeLeft := min (s.timeLeft + 5) 20 }) ∧
    ∀ p ∈ toggleSelect s.selected r c,
      cellAt (clearCells s.grid (toggleSelect s.selected r c)) p.1 p.2 = none := by
  constructor
  · have hsome : s.grid[r]? = some (s.grid.getD r []) :=
      grid_getElem?_of_lt s.grid (by omega)
    unfold handleBlockClick
    rw [if_neg (by simp [hst, hp])]
    split
    next heq => exact absurd (hsome.symm.trans heq) (by simp)
    next row heq =>
      have hrow : row = s.grid.getD r [] := Option.some.inj (heq.symm.trans hsome)
      split
      next heq2 =>
        rw [hrow, cellAt_eq, hcell] at heq2
        exact absurd heq2 (by simp)
      next val heq2 =>
        simp only []
        split
        next e he => rw [hsum] at he; exact absurd he (by simp)
        next cs hcs =>
          rw [hsum] at hcs
          have hcseq : s.target = cs := Except.ok.inj hcs
          rw [if_pos hcseq.symm]
          by_cases hm : s.mode = .classic
          · rw [if_pos hm]
            simp [handleSuccess, hm]
          · rw [if_neg hm]
            simp [handleSuccess, hm]
  · intro p hp'
    refine cellAt_clearCells_of_mem _ s.grid p hp' fun q hq => ?_
    rcases mem_toggleSelect hq with h' | h'
    · have := (hselwf q h').1
      omega
    · rw [h']
      omega

/-- C1 witness: on the all-nines grid with target 9, clicking `(0, 0)` makes
the sum 9 = target, so the click resolves the success branch (classic mode,
so `addNewRow` runs on the cleared state). -/
theorem handleBlockClick_success_witness :
    handleBlockClick ninesT9 0 0 tdTriv rdOnes =
      .ok (addNewRow { ninesT9 with
        score := ninesT9.score + ninesT9.target * (toggleSelect ninesT9.selected 0 0).length,
        grid := clearCells ninesT9.grid (toggleSelect ninesT9.selected 0 0),
        selected := [],
        target := generateNewTarget (clearCells ninesT9.grid (toggleSelect ninesT9.selected 0 0)) tdTriv } rdOnes) :=
  ((handleBlockClick_success ninesT9 0 0 tdTriv rdOnes { id := 0, value := 9 }
      rfl rfl (by decide) (by intro p hp; exact absurd hp (List.not_mem_nil p))
      (by decide) (by decide) rfl).1).trans
    (congrArg Except.ok (if_pos rfl))

end SumGame
